import Mathlib

/-!
Verification of the `PGVector` adapter (`mem0/vector_stores/pgvector.py`).

The adapter stores fixed-dimension embedding vectors with JSON payloads in a
PostgreSQL table and issues parameterized SQL against it.  The shallow
embedding below models:

* a stored row (`Record`) and the backing table as a list of rows in
  insertion order;
* the Python truthiness tests the source uses as guards (`if filters:`,
  `if vector:`, `if payload:`);
* the filter-building loop shared by `search` and `list` and the backend's
  evaluation of the conjunctive clause it produces;
* the record operations `insert`, `get`, `delete`, `update`, `list`,
  `search` (the backend's `<=>` cosine-distance operator is out of scope and
  is therefore a parameter of `search`; `ORDER BY distance` is a stable sort
  on the computed score and `LIMIT` is a prefix take);
* the `_get_cursor` resource facade's exit effects on both driver arms;
* the schema manager's index-strategy selection in `create_col`, and the
  table/index state transformers `create_col`, `delete_col` and `reset`,
  including Python's positional-argument arity check, which `reset` trips.
-/

namespace PGVectorSpec

/-- A JSON scalar stored in a payload or supplied as a filter value. -/
inductive FVal where
  | s : String → FVal
  | n : Int → FVal
deriving DecidableEq, Repr

/-- Python `str()` of a scalar, which for these scalars coincides with the
textual form PostgreSQL's `->>` operator yields. -/
def FVal.pyStr : FVal → String
  | .s v => v
  | .n i => toString i

/-- A payload: a one-level JSON object mapping string keys to scalars. -/
abbrev Payload := List (String × FVal)

/-- A stored row of the collection table: `id UUID PRIMARY KEY`,
`vector vector(dims)`, `payload JSONB`. -/
structure Record where
  id : String
  vec : List ℚ
  payload : Payload
deriving DecidableEq, Repr

/-- The backing table, rows in insertion order. -/
abbrev Table := List Record

/-- The `OutputData` pydantic model of the source: optional id, optional
score, optional payload. -/
structure OutputData where
  id : Option String
  score : Option ℚ
  payload : Option Payload
deriving DecidableEq, Repr

/-- Python truthiness of an optional-list argument: `None` and the empty
list/dict are falsy, a non-empty one is truthy. -/
def pyTruthyList {α : Type} : Option (List α) → Bool
  | none => false
  | some l => !l.isEmpty

/-- Translated from the filter-building loop shared by `PGVector.search`
(lines 188-196) and `PGVector.list` (lines 332-340): behind the `if filters:`
truthiness guard, each entry appends the fixed condition string
`payload->>%s = %s` to `filter_conditions` and extends `filter_params` with
the key and the Python `str()` of the value.  Returns the pair
(filter_conditions, filter_params). -/
def filterParts (filters : Option (List (String × FVal))) :
    List String × List String :=
  if pyTruthyList filters then
    (filters.getD []).foldl
      (fun acc kv => (acc.1 ++ ["payload->>%s = %s"], acc.2 ++ [kv.1, kv.2.pyStr]))
      ([], [])
  else ([], [])

/-- Translated from the `filter_clause` line of the source: `"WHERE "` plus
the `" AND "`-join of the conditions when any exist, otherwise the empty
string. -/
def filterClause (conds : List String) : String :=
  if conds.isEmpty then "" else "WHERE " ++ String.intercalate " AND " conds

/-- PostgreSQL `payload->>key`: the value of `key` as text, `NULL` (`none`)
when the key is absent. -/
def payloadText (p : Payload) (k : String) : Option String :=
  (p.find? (fun kv => kv.1 == k)).map (fun kv => kv.2.pyStr)

/-- Backend evaluation of the conjunctive WHERE clause produced by
`filterParts`: a row qualifies when every filter entry's key extracts (as
text) to exactly the entry value's string form; an SQL `NULL` comparison
(absent key) disqualifies the row.  An untruthy filters argument produces no
clause, so every row qualifies. -/
def rowMatches (filters : Option (List (String × FVal))) (r : Record) : Bool :=
  match filters with
  | none => true
  | some fs => fs.all (fun kv => payloadText r.payload kv.1 == some kv.2.pyStr)

/-- `PGVector.insert`: rows are zipped from ids, vectors and the
JSON-serialized payloads and appended to the table in one batch. -/
def insert (tbl : Table) (vectors : List (List ℚ)) (payloads : List Payload)
    (ids : List String) : Table :=
  tbl ++ (ids.zip (vectors.zip payloads)).map (fun x => ⟨x.1, x.2.1, x.2.2⟩)

/-- `PGVector.get`: point lookup by id; `fetchone` on no matching row makes
the method return `None`, otherwise an `OutputData` with a null score. -/
def get (tbl : Table) (vid : String) : Option OutputData :=
  match tbl.find? (fun r => r.id == vid) with
  | none => none
  | some r => some ⟨some r.id, none, some r.payload⟩

/-- `PGVector.delete`: `DELETE FROM collection WHERE id = %s`. -/
def delete (tbl : Table) (vid : String) : Table :=
  tbl.filter (fun r => !(r.id == vid))

/-- The `UPDATE collection SET vector = %s WHERE id = %s` statement. -/
def updateVectorStmt (tbl : Table) (vid : String) (v : List ℚ) : Table :=
  tbl.map (fun r => if r.id == vid then { r with vec := v } else r)

/-- The `UPDATE collection SET payload = %s WHERE id = %s` statement. -/
def updatePayloadStmt (tbl : Table) (vid : String) (p : Payload) : Table :=
  tbl.map (fun r => if r.id == vid then { r with payload := p } else r)

/-- `PGVector.update`: the source guards each statement with Python
truthiness (`if vector:` / `if payload:`), so `None` and an empty
vector/payload alike skip the corresponding UPDATE statement. -/
def update (tbl : Table) (vid : String) (vector : Option (List ℚ))
    (payload : Option Payload) : Table :=
  let t1 := if pyTruthyList vector then updateVectorStmt tbl vid (vector.getD []) else tbl
  if pyTruthyList payload then updatePayloadStmt t1 vid (payload.getD []) else t1

/-- Number of UPDATE statements `PGVector.update` issues for the given
arguments: one per truthy argument. -/
def updateStmtCount (vector : Option (List ℚ)) (payload : Option Payload) : Nat :=
  (if pyTruthyList vector then 1 else 0) + (if pyTruthyList payload then 1 else 0)

/-- `PGVector.list`: `SELECT id, vector, payload FROM collection
[WHERE ...] LIMIT %s`, rows in table order capped at `limit` — but the
return line of the source wraps the comprehension building the per-row
`OutputData` list inside one more list literal, so the method's value is a
singleton list containing the row list. -/
def list (tbl : Table) (filters : Option (List (String × FVal)))
    (limit : Nat) : List (List OutputData) :=
  [((tbl.filter (rowMatches filters)).take limit).map
    (fun r => ⟨some r.id, none, some r.payload⟩)]

/-- `PGVector.search`: `SELECT id, vector <=> %s::vector AS distance,
payload FROM collection [WHERE ...] ORDER BY distance LIMIT %s`.  The `<=>`
operator is the backend's cosine distance; the engine is out of scope, so
the metric is the parameter `dist`.  Qualifying rows are scored, ordered by
non-decreasing score (ties in backend row order, modeled by a stable sort)
and capped at `limit`. -/
def search (dist : List ℚ → List ℚ → ℚ) (tbl : Table) (q : List ℚ)
    (limit : Nat) (filters : Option (List (String × FVal))) : List OutputData :=
  ((((tbl.filter (rowMatches filters)).map (fun r => (r, dist r.vec q))).mergeSort
      (fun a b => decide (a.2 ≤ b.2))).take limit).map
    (fun x => ⟨some x.1.id, some x.2, some x.1.payload⟩)

/-- The two driver families the module supports: psycopg (version 3) with
its `ConnectionPool`, or psycopg2 with a `ThreadedConnectionPool`. -/
inductive Driver where
  | psycopg3
  | psycopg2
deriving DecidableEq, Repr

/-- Observable exit effects of one pass through `PGVector._get_cursor`:
whether the transaction was committed, whether it was rolled back, whether
the connection went back to the pool, and whether the block's error was
propagated to the caller. -/
structure CursorExit where
  committed : Bool
  rolledBack : Bool
  released : Bool
  raised : Bool
deriving DecidableEq, Repr

/-- Exit effects of `PGVector._get_cursor(commit)` when the scoped block
either completes (`blockRaised = false`) or raises (`blockRaised = true`).
The psycopg3 arm of the source is `with self.pool.connection()`, delegating
wholesale to psycopg_pool's documented context semantics — commit on clean
exit, rollback when the block raised, connection returned to the pool either
way — and never consults the `commit` parameter.  The psycopg2 arm mirrors
the explicit code: commit only when `commit` was requested and the block
completed; on an exception roll back and re-raise; in the `finally` block
close the cursor and return the connection to the pool. -/
def getCursorExit (d : Driver) (commit : Bool) (blockRaised : Bool) : CursorExit :=
  match d with
  | .psycopg3 =>
      { committed := !blockRaised, rolledBack := blockRaised,
        released := true, raised := blockRaised }
  | .psycopg2 =>
      { committed := commit && !blockRaised, rolledBack := blockRaised,
        released := true, raised := blockRaised }

/-- The kinds of similarity index `create_col` may create. -/
inductive IndexKind where
  | diskann
  | hnsw
deriving DecidableEq, Repr

/-- Index-strategy selection of `PGVector.create_col` (lines 130-148),
translated branch for branch: `if self.use_diskann and
self.embedding_model_dims < 2000:` then, inside that branch, create the
DiskANN index only when the `vectorscale` extension row is found;
`elif self.use_hnsw:` create the HNSW index; else no index. -/
def indexDecision (useDiskann : Bool) (dims : Nat) (vectorscaleInstalled : Bool)
    (useHnsw : Bool) : Option IndexKind :=
  if useDiskann && decide (dims < 2000) then
    if vectorscaleInstalled then some .diskann else none
  else if useHnsw then some .hnsw else none

/-- The index-selection rule as the spec sentence states it, for comparison
with `indexDecision`: DiskANN when requested with dims < 2000 and the
extension installed; otherwise HNSW whenever HNSW is enabled; else none. -/
def indexDecisionClaimed (useDiskann : Bool) (dims : Nat)
    (vectorscaleInstalled : Bool) (useHnsw : Bool) : Option IndexKind :=
  if useDiskann && decide (dims < 2000) && vectorscaleInstalled then some .diskann
  else if useHnsw then some .hnsw else none

/-- Adapter configuration relevant to schema management. -/
structure Config where
  collection_name : String
  embedding_model_dims : Nat
  use_diskann : Bool
  use_hnsw : Bool
deriving Repr

/-- Schema-level database state: named tables with their rows, and the set
of existing index names. -/
structure DB where
  tables : List (String × Table)
  indexes : List String
deriving DecidableEq, Repr

/-- Whether a table of the given name exists. -/
def tableExists (db : DB) (name : String) : Bool :=
  db.tables.any (fun t => t.1 == name)

/-- `PGVector.delete_col`: `DROP TABLE IF EXISTS collection`; a dropped
table takes its indexes with it. -/
def delete_col (cfg : Config) (db : DB) : DB :=
  { tables := db.tables.filter (fun t => !(t.1 == cfg.collection_name)),
    indexes := db.indexes.filter (fun i =>
      !(i == cfg.collection_name ++ "_diskann_idx")
      && !(i == cfg.collection_name ++ "_hnsw_idx")) }

/-- `PGVector.create_col`: `CREATE TABLE IF NOT EXISTS` with id, vector and
payload columns, then `CREATE INDEX IF NOT EXISTS` for the index chosen by
`indexDecision` (the `CREATE EXTENSION IF NOT EXISTS vector` step has no
schema-level observable here). -/
def create_col (cfg : Config) (vectorscaleInstalled : Bool) (db : DB) : DB :=
  let db1 := if tableExists db cfg.collection_name then db
             else { db with tables := db.tables ++ [(cfg.collection_name, [])] }
  match indexDecision cfg.use_diskann cfg.embedding_model_dims
      vectorscaleInstalled cfg.use_hnsw with
  | some .diskann =>
      let nm := cfg.collection_name ++ "_diskann_idx"
      if db1.indexes.contains nm then db1
      else { db1 with indexes := db1.indexes ++ [nm] }
  | some .hnsw =>
      let nm := cfg.collection_name ++ "_hnsw_idx"
      if db1.indexes.contains nm then db1
      else { db1 with indexes := db1.indexes ++ [nm] }
  | none => db1

/-- Log levels used by the module's logger calls. -/
inductive LogLevel where
  | info
  | warning
deriving DecidableEq, Repr

/-- Python positional-call arity check: invoking a bound method whose `def`
declares `nparams` parameters (beyond `self`) with `nargs` positional
arguments raises `TypeError` unless the counts match; only then does the
body run. -/
def pyCallArity (nparams nargs : Nat) (f : DB → DB) (db : DB) :
    Except String DB :=
  if nargs = nparams then .ok (f db) else .error "TypeError"

/-- `PGVector.reset` translated line by line: first log the destructive
warning, then `self.delete_col()` (which commits the drop on its own
cursor), then the call `self.create_col(cur)` — one positional argument
passed to `create_col`, whose `def` declares none beyond `self`.  The result
is the log, the database state when `reset` returns or raises, and the
raised error if any; on `TypeError` the state keeps the already-committed
drop. -/
def reset (cfg : Config) (vectorscaleInstalled : Bool) (db : DB) :
    List (LogLevel × String) × DB × Option String :=
  let log := [(LogLevel.warning, "Resetting index " ++ cfg.collection_name ++ "...")]
  let db1 := delete_col cfg db
  match pyCallArity 0 1 (create_col cfg vectorscaleInstalled) db1 with
  | .ok db2 => (log, db2, none)
  | .error e => (log, db1, some e)

/-- Example configuration used by concrete evaluations: collection
`memories`, dimensionality 4, DiskANN off, HNSW on. -/
def cfgEx : Config := ⟨"memories", 4, false, true⟩

/-- Example database state: the `memories` table holding one record, with
its HNSW index present. -/
def dbEx : DB :=
  ⟨[("memories", [⟨"a", [1, 0, 0, 0], [("k", FVal.s "v")]⟩])],
   ["memories_hnsw_idx"]⟩

/-- C1: the claim says `reset()` drops the backing table and then recreates
the collection, so that afterwards the collection exists and is empty.  The
code logs the destructive warning and commits the drop, but then invokes
`create_col` with a cursor argument even though `create_col` declares no
parameter beyond `self`: the call raises `TypeError`, so `reset` terminates
with the collection dropped and never recreated — contradicting the claim,
the spec, and the method's own docstring. -/
theorem claim_C1_reset_raises_and_collection_gone :
    (reset cfgEx true dbEx).1 = [(LogLevel.warning, "Resetting index memories...")]
    ∧ (reset cfgEx true dbEx).2.2 = some "TypeError"
    ∧ tableExists (reset cfgEx true dbEx).2.1 "memories" = false := by
  decide

/-- C2 counterexample: DiskANN requested, dimensionality 100 < 2000, the
vectorscale extension absent, HNSW enabled.  The claim requires a fallback
to an HNSW index here, but the source takes the outer DiskANN branch (the
`elif` is never reached) and creates no index at all. -/
theorem claim_C2_counterexample :
    indexDecision true 100 false true = none
    ∧ indexDecisionClaimed true 100 false true = some IndexKind.hnsw := by
  decide

/-- C2 (amended): a DiskANN index is created exactly when DiskANN is
requested, dimensionality < 2000 and the extension is installed; the HNSW
fallback occurs exactly when HNSW is enabled and the outer DiskANN branch
was not taken (DiskANN not requested, or dimensionality ≥ 2000); when
DiskANN is requested with dimensionality < 2000 but the extension absent,
no index is created even if HNSW is enabled. -/
theorem claim_C2_index_selection (d h ext : Bool) (dims : Nat) :
    (indexDecision d dims ext h = some IndexKind.diskann
      ↔ d = true ∧ dims < 2000 ∧ ext = true)
    ∧ (indexDecision d dims ext h = some IndexKind.hnsw
      ↔ h = true ∧ (d = false ∨ 2000 ≤ dims))
    ∧ (indexDecision d dims ext h = none
      ↔ ((d = true ∧ dims < 2000 ∧ ext = false)
        ∨ (h = false ∧ (d = false ∨ 2000 ≤ dims)))) := by
  rcases Nat.lt_or_ge dims 2000 with hd | hd
  · cases d <;> cases h <;> cases ext <;>
      simp [indexDecision, hd, Nat.not_le.mpr hd]
  · have hd' : ¬ dims < 2000 := Nat.not_lt.mpr hd
    cases d <;> cases h <;> cases ext <;>
      simp [indexDecision, hd, hd']

/-- Example table for the C3 scenario: 3 vectors of dimensionality 4 with
ids a, b, c and distinct payloads, inserted into an empty collection. -/
def tblC3 : Table :=
  insert [] [[1, 0, 0, 0], [0, 1, 0, 0], [0, 0, 1, 0]]
    [[("t", FVal.s "p1")], [("t", FVal.s "p2")], [("t", FVal.s "p3")]]
    ["a", "b", "c"]

/-- C3: the claim says `list` returns a flat list of records — in the
scenario, exactly 3 records with ids a, b, c.  The source's return line
wraps the row list in one more list literal, so the returned value has
exactly ONE element, a nested list that itself holds the 3 records with the
inserted ids and payloads — contradicting the claim and the method's own
`List[OutputData]` annotation and docstring. -/
theorem claim_C3_list_returns_nested_singleton :
    (list tblC3 none 10).length = 1
    ∧ ((list tblC3 none 10).headD []).map (fun o => o.id)
        = [some "a", some "b", some "c"]
    ∧ ((list tblC3 none 10).headD []).map (fun o => o.payload)
        = [some [("t", FVal.s "p1")], some [("t", FVal.s "p2")],
           some [("t", FVal.s "p3")]] := by
  decide

/-- C4 counterexample: psycopg3 backend, auto-commit not requested, block
completed without error.  The claim requires that no commit be issued; the
facade's psycopg3 arm never consults the flag and the pool's connection
context commits on every clean exit. -/
theorem claim_C4_counterexample :
    ¬ ((getCursorExit Driver.psycopg3 false false).committed = false) := by
  decide

/-- C4 (amended): on the psycopg2 arm a commit is issued exactly when the
caller requested auto-commit and the block completed; on the psycopg3 arm
the commit flag is ignored and a commit is issued exactly when the block
completed, so read-only operations do force a commit on that backend. -/
theorem claim_C4_commit_discipline (c e : Bool) :
    (getCursorExit Driver.psycopg2 c e).committed = (c && !e)
    ∧ (getCursorExit Driver.psycopg3 c e).committed = !e := by
  cases c <;> cases e <;> exact ⟨rfl, rfl⟩

/-- C5: on both driver arms, when the scoped block raises, the facade rolls
the transaction back and propagates the original error; and on every exit
path — success or error — the connection is released back to the pool. -/
theorem claim_C5_rollback_reraise_release (d : Driver) (c : Bool) :
    (getCursorExit d c true).rolledBack = true
    ∧ (getCursorExit d c true).raised = true
    ∧ (∀ e : Bool, (getCursorExit d c e).released = true) := by
  cases d <;> exact ⟨rfl, rfl, fun _ => rfl⟩

/-- C10: the update guards are truthiness tests, not `is None` tests: an
empty vector list and an empty payload dict are skipped exactly as if the
argument were `None`, and with both arguments empty zero UPDATE statements
are issued — so `update` can never write an empty payload `\x7b\x7d` or an
empty vector into a stored row. -/
theorem claim_C10_truthiness_guards (tbl : Table) (vid : String)
    (v : Option (List ℚ)) (p : Option Payload) :
    update tbl vid (some []) p = update tbl vid none p
    ∧ update tbl vid v (some []) = update tbl vid v none
    ∧ updateStmtCount (some []) (some []) = 0 := by
  exact ⟨rfl, rfl, rfl⟩

/-- Mapping a function that fixes every element of a list leaves the list
unchanged. -/
theorem map_fixes {α : Type} (l : List α) (f : α → α)
    (hf : ∀ a ∈ l, f a = a) : l.map f = l := by
  rw [List.map_congr_left (g := id) (by simpa using hf), List.map_id]

/-- C6: on an identifier absent from the collection, `get` returns the
explicit absent result `none` rather than failing, and `delete` and
`update` complete as no-ops that leave the table unchanged. -/
theorem claim_C6_missing_id_noop (tbl : Table) (vid : String)
    (v : Option (List ℚ)) (p : Option Payload)
    (h : ∀ r ∈ tbl, r.id ≠ vid) :
    get tbl vid = none
    ∧ delete tbl vid = tbl
    ∧ update tbl vid v p = tbl := by
  have hfind : tbl.find? (fun r => r.id == vid) = none := by
    apply List.find?_eq_none.mpr
    intro r hr
    simpa using h r hr
  have hvec : ∀ vv, updateVectorStmt tbl vid vv = tbl := fun vv =>
    map_fixes _ _ (fun r hr => by simp [h r hr])
  have hpay : ∀ pl, updatePayloadStmt tbl vid pl = tbl := fun pl =>
    map_fixes _ _ (fun r hr => by simp [h r hr])
  refine ⟨by simp [get, hfind], ?_, ?_⟩
  · exact List.filter_eq_self.mpr (fun r hr => by simp [h r hr])
  · cases hvt : pyTruthyList v <;> cases hpt : pyTruthyList p <;>
      simp [update, hvt, hpt, hvec, hpay]

/-- C6 witness: a one-row table whose only id is `a`, probed at the absent
identifier `zzz` with a concrete vector and payload; the absence hypothesis
holds there and the theorem applies. -/
theorem claim_C6_missing_id_noop_witness :
    (∀ r ∈ ([⟨"a", [(1 : ℚ)], [("k", FVal.s "v")]⟩] : Table), r.id ≠ "zzz")
    ∧ (get [⟨"a", [(1 : ℚ)], [("k", FVal.s "v")]⟩] "zzz" = none
      ∧ delete [⟨"a", [(1 : ℚ)], [("k", FVal.s "v")]⟩] "zzz"
          = [⟨"a", [(1 : ℚ)], [("k", FVal.s "v")]⟩]
      ∧ update [⟨"a", [(1 : ℚ)], [("k", FVal.s "v")]⟩] "zzz"
          (some [2]) (some [("x", FVal.n 1)])
          = [⟨"a", [(1 : ℚ)], [("k", FVal.s "v")]⟩]) :=
  ⟨by decide, claim_C6_missing_id_noop _ _ _ _ (by decide)⟩

/-- C7: `update` with `vector=None` leaves every row's id and stored vector
unchanged; symmetrically, `update` with `payload=None` leaves every row's id
and stored payload unchanged; with both arguments omitted the call issues
zero UPDATE statements and returns the table identically. -/
theorem claim_C7_update_frame (tbl : Table) (vid : String) (P : Payload)
    (V : List ℚ) :
    (update tbl vid none (some P)).map (fun r => (r.id, r.vec))
        = tbl.map (fun r => (r.id, r.vec))
    ∧ (update tbl vid (some V) none).map (fun r => (r.id, r.payload))
        = tbl.map (fun r => (r.id, r.payload))
    ∧ update tbl vid none none = tbl
    ∧ updateStmtCount none none = 0 := by
  have key1 : ∀ pl, (updatePayloadStmt tbl vid pl).map (fun r => (r.id, r.vec))
      = tbl.map (fun r => (r.id, r.vec)) := by
    intro pl
    unfold updatePayloadStmt
    rw [List.map_map]
    apply List.map_congr_left
    intro r _
    by_cases hc : r.id = vid <;> simp [hc]
  have key2 : ∀ vv, (updateVectorStmt tbl vid vv).map (fun r => (r.id, r.payload))
      = tbl.map (fun r => (r.id, r.payload)) := by
    intro vv
    unfold updateVectorStmt
    rw [List.map_map]
    apply List.map_congr_left
    intro r _
    by_cases hc : r.id = vid <;> simp [hc]
  refine ⟨?_, ?_, rfl, rfl⟩
  · cases hpt : pyTruthyList (some P)
    · simp only [update, hpt]
      simp [pyTruthyList]
    · simp only [update, hpt]
      simp [pyTruthyList, key1]
  · cases hvt : pyTruthyList (some V)
    · simp only [update, hvt]
      simp [pyTruthyList]
    · simp only [update, hvt]
      simp [pyTruthyList, key2]

/-- Closed form of the filter-building fold: starting from any accumulator,
the fold appends one constant placeholder condition per entry and the
key/str(value) parameter pairs in entry order. -/
theorem filterFold_closed (fs : List (String × FVal))
    (acc : List String × List String) :
    fs.foldl (fun acc kv =>
        (acc.1 ++ ["payload->>%s = %s"], acc.2 ++ [kv.1, kv.2.pyStr])) acc
      = (acc.1 ++ List.replicate fs.length "payload->>%s = %s",
         acc.2 ++ fs.flatMap (fun kv => [kv.1, kv.2.pyStr])) := by
  induction fs generalizing acc with
  | nil => simp
  | cons kv rest ih =>
      simp only [List.foldl_cons, ih, List.length_cons, List.replicate_succ,
        List.flatMap_cons]
      simp

/-- C8: the generated fragment is one fixed placeholder predicate per filter
entry (so entry keys and values never appear in the statement text), the
bound-parameter list is the key/str(value) pairs in entry order, an absent
or empty filter map produces no conditions and an empty WHERE clause, and
the conditions are joined with AND after the WHERE keyword. -/
theorem claim_C8_filter_translation (fs : List (String × FVal)) :
    (filterParts (some fs)).1 = List.replicate fs.length "payload->>%s = %s"
    ∧ (filterParts (some fs)).2 = fs.flatMap (fun kv => [kv.1, kv.2.pyStr])
    ∧ filterParts none = ([], [])
    ∧ filterClause [] = ""
    ∧ filterClause ["payload->>%s = %s", "payload->>%s = %s"]
        = "WHERE payload->>%s = %s AND payload->>%s = %s" := by
  have hsome : filterParts (some fs)
      = (List.replicate fs.length "payload->>%s = %s",
         fs.flatMap (fun kv => [kv.1, kv.2.pyStr])) := by
    cases fs with
    | nil => rfl
    | cons kv rest =>
        unfold filterParts
        simp [pyTruthyList, filterFold_closed, List.length_cons,
          List.replicate_succ]
  exact ⟨by rw [hsome], by rw [hsome], rfl, rfl, rfl⟩

/-- C9: `search` returns at most `limit` results, and the returned results
are ordered by non-decreasing distance score (nearest first) — for the
backend's cosine distance as for any metric, since the ordering is imposed
by the ORDER BY on the computed distance column. -/
theorem claim_C9_search_limit_and_order (dist : List ℚ → List ℚ → ℚ)
    (tbl : Table) (q : List ℚ) (limit : Nat)
    (filters : Option (List (String × FVal))) :
    (search dist tbl q limit filters).length ≤ limit
    ∧ List.Pairwise (fun a b : OutputData => a.score.getD 0 ≤ b.score.getD 0)
        (search dist tbl q limit filters) := by
  constructor
  · unfold search
    rw [List.length_map, List.length_take]
    omega
  · unfold search
    have htrans : ∀ a b c : Record × ℚ, decide (a.2 ≤ b.2) = true →
        decide (b.2 ≤ c.2) = true → decide (a.2 ≤ c.2) = true := by
      intro a b c hab hbc
      exact decide_eq_true (le_trans (of_decide_eq_true hab) (of_decide_eq_true hbc))
    have htotal : ∀ a b : Record × ℚ,
        (decide (a.2 ≤ b.2) || decide (b.2 ≤ a.2)) = true := by
      intro a b
      rcases le_total a.2 b.2 with hle | hle
      · simp [decide_eq_true hle]
      · simp [decide_eq_true hle]
    have hs := List.sorted_mergeSort htrans htotal
        ((tbl.filter (rowMatches filters)).map (fun r => (r, dist r.vec q)))
    have hs' : List.Pairwise (fun a b : Record × ℚ => a.2 ≤ b.2)
        (((tbl.filter (rowMatches filters)).map
            (fun r => (r, dist r.vec q))).mergeSort
          (fun a b => decide (a.2 ≤ b.2))) :=
      hs.imp (fun h => of_decide_eq_true h)
    have htake := List.Pairwise.sublist (List.take_sublist limit _) hs'
    exact List.pairwise_map.mpr (htake.imp (fun h => by simpa using h))

end PGVectorSpec
